import Mathlib

/-!
Verification of the grading-relay Cloudflare Worker (src/worker.js).

The source file contains two near-duplicate handler variants, separated by a
document marker: variant 1 (lines 5-200) and variant 2 (lines 205-432).
Both are embedded below as pure functions over an explicit request,
environment and upstream-outcome state.

Modelling conventions:
  * JSON values are an inductive type; JSON numbers are restricted to
    integers (no claim involves fractional literals).
  * JavaScript strings are modelled by Lean strings; `.length`, `.slice`
    and `.trim` are modelled by the codepoint-based `String.length`,
    `jsSlice` and `jsTrim` below.
  * An uncaught JavaScript exception escaping the handler is modelled as
    the `Except.error` result; a returned `Response` as `Except.ok`.
  * The upstream call (`await fetch(...)` to the OpenAI endpoint) is
    modelled by an `UpstreamOutcome` parameter: whether the transport
    promise rejects, the HTTP `ok` flag, the error-body text and the
    parsed JSON body (`none` when the 2xx body is not valid JSON, in
    which case the unguarded `openaiResp.json()` throws).
  * The outbound prompt strings affect only what is sent upstream, never
    the emitted response, so prompt construction is not modelled.
-/

set_option maxRecDepth 4000

/-- JavaScript `String.prototype.trim()`: strip leading and trailing
whitespace (modelled over the ASCII whitespace characters). -/
def jsTrim (s : String) : String :=
  String.mk (((s.data.dropWhile Char.isWhitespace).reverse.dropWhile Char.isWhitespace).reverse)

/-- JavaScript `String.prototype.slice(0, n)`. -/
def jsSlice (s : String) (n : Nat) : String :=
  String.mk (s.data.take n)

/-- JSON values as produced by `JSON.parse` / consumed by `JSON.stringify`.
Object fields are kept in insertion order, as JavaScript objects do. -/
inductive Json where
  | null : Json
  | bool : Bool → Json
  | num : Int → Json
  | str : String → Json
  | arr : List Json → Json
  | obj : List (String × Json) → Json
deriving Repr

/-- Whether a JSON-derived JavaScript value is falsy
(`null`, `false`, `0`, `""`). -/
def Json.isFalsy : Json → Bool
  | .null => true
  | .bool b => !b
  | .num n => n == 0
  | .str s => s == ""
  | _ => false

/-- Whether the value is exactly JSON `null` (property access on `null`
throws a `TypeError` in JavaScript). -/
def Json.isNull : Json → Bool
  | .null => true
  | _ => false

/-- JavaScript property read `v[k]` for JSON-derived values, on values where
it does not throw: objects look the key up, other non-null values yield
`undefined` (`none`). The throwing case (`v = null`) is handled explicitly
at each access site in the handler model. -/
def jsProp (v : Json) (k : String) : Option Json :=
  match v with
  | .obj fields => (fields.find? (fun p => p.1 == k)).map (·.2)
  | _ => none

mutual
/-- JavaScript `String(v)` for JSON-derived values: `null`/booleans/numbers
print their literal form, strings pass through, arrays join their elements
with commas (with `null` elements contributing the empty string, per
`Array.prototype.join`), and plain objects print `"[object Object]"`. -/
def jsToString : Json → String
  | .null => "null"
  | .bool b => if b then "true" else "false"
  | .num n => toString n
  | .str s => s
  | .arr l => String.intercalate "," (jsToStringElems l)
  | .obj _ => "[object Object]"

/-- Element strings of `Array.prototype.join`: `null` joins as `""`. -/
def jsToStringElems : List Json → List String
  | [] => []
  | .null :: vs => "" :: jsToStringElems vs
  | v :: vs => jsToString v :: jsToStringElems vs
end

/-- Hexadecimal digit character (lowercase), as used by `JSON.stringify`
for control-character escapes. -/
def hexDigit (n : Nat) : Char :=
  if n < 10 then Char.ofNat (48 + n) else Char.ofNat (87 + (n - 10))

/-- `JSON.stringify` escaping of one character inside a string literal. -/
def escChar (c : Char) : String :=
  if c = '"' then "\\\""
  else if c = '\\' then "\\\\"
  else if c = '\x08' then "\\b"
  else if c = '\x09' then "\\t"
  else if c = '\x0a' then "\\n"
  else if c = '\x0c' then "\\f"
  else if c = '\x0d' then "\\r"
  else if c.toNat < 32 then
    String.mk ['\\', 'u', '0', '0', hexDigit (c.toNat / 16), hexDigit (c.toNat % 16)]
  else String.singleton c

/-- `JSON.stringify` rendering of a string literal, quotes included. -/
def quoteStr (s : String) : String :=
  "\"" ++ String.join (s.data.map escChar) ++ "\""

mutual
/-- `JSON.stringify` for JSON values (object keys in insertion order). -/
def stringify : Json → String
  | .null => "null"
  | .bool b => if b then "true" else "false"
  | .num n => toString n
  | .str s => quoteStr s
  | .arr l => "[" ++ String.intercalate "," (stringifyElems l) ++ "]"
  | .obj fs => "\x7b" ++ String.intercalate "," (stringifyFields fs) ++ "\x7d"

/-- Rendered elements of a JSON array. -/
def stringifyElems : List Json → List String
  | [] => []
  | v :: vs => stringify v :: stringifyElems vs

/-- Rendered `"key":value` members of a JSON object. -/
def stringifyFields : List (String × Json) → List String
  | [] => []
  | (k, v) :: fs => (quoteStr k ++ ":" ++ stringify v) :: stringifyFields fs
end

/-! ### JSON.parse

A recursive-descent parser for JSON text, matching `JSON.parse` except that
number literals are restricted to (optionally signed) integers: inputs with
fractional or exponent parts are outside the model.  The mutual recursion is
fuelled; `2 * length + 8` fuel always suffices because at least one input
character is consumed for every two fuel decrements. -/

/-- JSON insignificant whitespace. -/
def isJsonWs (c : Char) : Bool :=
  c = ' ' || c = '\x09' || c = '\x0a' || c = '\x0d'

/-- Skip insignificant whitespace. -/
def skipWs (cs : List Char) : List Char :=
  cs.dropWhile isJsonWs

/-- Value of a hexadecimal digit, if any. -/
def hexVal (c : Char) : Option Nat :=
  if '0' ≤ c ∧ c ≤ '9' then some (c.toNat - 48)
  else if 'a' ≤ c ∧ c ≤ 'f' then some (c.toNat - 87)
  else if 'A' ≤ c ∧ c ≤ 'F' then some (c.toNat - 55)
  else none

/-- Character denoted by a single-character escape sequence, if valid. -/
def escVal (c : Char) : Option Char :=
  if c = '"' then some '"'
  else if c = '\\' then some '\\'
  else if c = '/' then some '/'
  else if c = 'b' then some '\x08'
  else if c = 'f' then some '\x0c'
  else if c = 'n' then some '\x0a'
  else if c = 'r' then some '\x0d'
  else if c = 't' then some '\x09'
  else none

/-- Parse the remainder of a JSON string literal (opening quote already
consumed): the decoded characters and the input after the closing quote. -/
def parseStrAux : List Char → Option (List Char × List Char)
  | [] => none
  | '"' :: rest => some ([], rest)
  | '\\' :: 'u' :: h1 :: h2 :: h3 :: h4 :: rest =>
    match hexVal h1, hexVal h2, hexVal h3, hexVal h4 with
    | some a, some b, some c, some d =>
      (parseStrAux rest).map fun p =>
        (Char.ofNat (((a * 16 + b) * 16 + c) * 16 + d) :: p.1, p.2)
    | _, _, _, _ => none
  | '\\' :: e :: rest =>
    match escVal e with
    | some c => (parseStrAux rest).map fun p => (c :: p.1, p.2)
    | none => none
  | c :: rest =>
    if c.toNat < 32 then none
    else (parseStrAux rest).map fun p => (c :: p.1, p.2)

/-- Numeric value of a digit string. -/
def digitsVal (ds : List Char) : Nat :=
  ds.foldl (fun a c => a * 10 + (c.toNat - 48)) 0

/-- Parse a JSON integer literal starting at the given position. -/
def parseNumAux (cs : List Char) : Option (Json × List Char) :=
  let signed : Bool × List Char :=
    match cs with
    | '-' :: r => (true, r)
    | _ => (false, cs)
  match signed.2 with
  | '0' :: r =>
    if (r.head?.elim false Char.isDigit) then none
    else some (.num 0, r)
  | c :: r =>
    if c.isDigit then
      let ds := (c :: r).takeWhile Char.isDigit
      let rest := (c :: r).dropWhile Char.isDigit
      let v : Int := Int.ofNat (digitsVal ds)
      some (.num (if signed.1 then -v else v), rest)
    else none
  | [] => none

/-- Insert a parsed object member: a duplicate key replaces the earlier
value in place (JavaScript object assignment semantics). -/
def insertField : List (String × Json) → String → Json → List (String × Json)
  | [], k, v => [(k, v)]
  | (k1, v1) :: rest, k, v =>
    if k1 == k then (k1, v) :: rest else (k1, v1) :: insertField rest k v

mutual
/-- Parse one JSON value (leading whitespace allowed). -/
def parseVal : Nat → List Char → Option (Json × List Char)
  | 0, _ => none
  | fuel + 1, cs =>
    match skipWs cs with
    | 'n' :: 'u' :: 'l' :: 'l' :: r => some (.null, r)
    | 't' :: 'r' :: 'u' :: 'e' :: r => some (.bool true, r)
    | 'f' :: 'a' :: 'l' :: 's' :: 'e' :: r => some (.bool false, r)
    | '"' :: r => (parseStrAux r).map fun p => (.str (String.mk p.1), p.2)
    | '[' :: r =>
      match skipWs r with
      | ']' :: r2 => some (.arr [], r2)
      | r2 => (parseItems fuel r2).map fun p => (.arr p.1, p.2)
    | '\x7b' :: r =>
      match skipWs r with
      | '\x7d' :: r2 => some (.obj [], r2)
      | r2 => (parseMembers fuel [] r2).map fun p => (.obj p.1, p.2)
    | cs2 => parseNumAux cs2

/-- Parse the comma-separated elements of a non-empty array, up to and
including the closing bracket. -/
def parseItems : Nat → List Char → Option (List Json × List Char)
  | 0, _ => none
  | fuel + 1, cs =>
    match parseVal fuel cs with
    | none => none
    | some (v, cs2) =>
      match skipWs cs2 with
      | ',' :: cs3 =>
        match parseItems fuel cs3 with
        | some (vs, cs4) => some (v :: vs, cs4)
        | none => none
      | ']' :: cs3 => some ([v], cs3)
      | _ => none

/-- Parse the members of a non-empty object into the accumulator, up to and
including the closing brace. -/
def parseMembers : Nat → List (String × Json) → List Char →
    Option (List (String × Json) × List Char)
  | 0, _, _ => none
  | fuel + 1, acc, cs =>
    match skipWs cs with
    | '"' :: r =>
      match parseStrAux r with
      | none => none
      | some (kcs, cs2) =>
        match skipWs cs2 with
        | ':' :: cs3 =>
          match parseVal fuel cs3 with
          | none => none
          | some (v, cs4) =>
            match skipWs cs4 with
            | ',' :: cs5 => parseMembers fuel (insertField acc (String.mk kcs) v) cs5
            | '\x7d' :: cs5 => some (insertField acc (String.mk kcs) v, cs5)
            | _ => none
        | _ => none
    | _ => none
end

/-- `JSON.parse`: parse a complete JSON document (integer-only numbers);
`none` models a thrown `SyntaxError`. -/
def parseJson (s : String) : Option Json :=
  match parseVal (2 * s.length + 8) s.data with
  | some (v, rest) => if skipWs rest = [] then some v else none
  | none => none


/-! ### Origin policy and CORS headers (worker.js lines 179-200 / 413-432) -/

/-- Test for the localhost development pattern
`/^http:\/\/localhost:\d+$/` (lines 183 / 417). -/
def isLocalhost (s : String) : Bool :=
  s.data.take 17 == "http://localhost:".data &&
    (let rest := s.data.drop 17
     !rest.isEmpty && rest.all Char.isDigit)

/-- `isAllowedOrigin` of variant 1 (lines 179-190): `null` for a falsy
origin, the origin itself for the localhost pattern or the exact string
`https://Tessis-RRR.github.io`, `null` otherwise. -/
def isAllowedOrigin1 (origin : String) : Option String :=
  if origin = "" then none
  else if isLocalhost origin then some origin
  else if origin = "https://Tessis-RRR.github.io" then some origin
  else none

/-- `isAllowedOrigin` of variant 2 (lines 413-423): as variant 1 but the
site constant is the lowercase `https://tessis-rrr.github.io`. -/
def isAllowedOrigin2 (origin : String) : Option String :=
  if origin = "" then none
  else if isLocalhost origin then some origin
  else if origin = "https://tessis-rrr.github.io" then some origin
  else none

/-- `corsHeaders` (lines 193-200 / 425-432): empty for a falsy argument,
otherwise the three CORS headers echoing the given origin.  The argument is
`none` for JavaScript `null` and `some s` for a string `s`. -/
def corsHeaders : Option String → List (String × String)
  | none => []
  | some o =>
    if o = "" then []
    else [("Access-Control-Allow-Origin", o),
          ("Access-Control-Allow-Methods", "POST, OPTIONS"),
          ("Access-Control-Allow-Headers", "Content-Type")]

/-! ### Request, environment, upstream outcome, response -/

/-- An inbound HTTP request: its method, its `Origin` header (`none` when
absent), and the result of `await request.json()` (`none` when the body is
not valid JSON, so that the awaited promise rejects). -/
structure Request where
  method : String
  originHeader : Option String
  body : Option Json

/-- The worker environment; the empty string models a missing or empty
(falsy) `OPENAI_API_KEY` binding. -/
structure Env where
  OPENAI_API_KEY : String

/-- Outcome of the outbound OpenAI call, seen from the handler:
`rejects` — the `fetch` promise itself rejects (transport failure);
`ok` — the HTTP status is 2xx; `errText` — the body text read in the
non-2xx branch; `respJson` — the result of `openaiResp.json()` in the 2xx
branch (`none` when that awaited promise rejects because the body is not
valid JSON). -/
structure UpstreamOutcome where
  rejects : Bool
  ok : Bool
  errText : String
  respJson : Option Json

/-- An emitted HTTP response: status, headers in insertion order, and the
body (`none` models the `null` body of the 204 preflight response). -/
structure WResponse where
  status : Nat
  headers : List (String × String)
  body : Option String
deriving Repr, DecidableEq

/-- Look a header up by name. -/
def hdr (r : WResponse) (name : String) : Option String :=
  (r.headers.find? (fun p => p.1 == name)).map (·.2)

/-- The `Content-Type: application/json` header followed by the CORS
headers, as spread in every JSON response of the worker. -/
def ctCors (o : Option String) : List (String × String) :=
  ("Content-Type", "application/json") :: corsHeaders o

/-- The response constructor used for every JSON body in the worker:
`new Response(JSON.stringify(j), { status, headers })`. -/
def jsonResp (status : Nat) (headers : List (String × String)) (j : Json) : WResponse :=
  ⟨status, headers, some (stringify j)⟩

/-! ### Field extraction and coercion (lines 40-42 / 255-260) -/

/-- `String(v || "").trim()` applied to a possibly-absent field value:
an absent (`undefined`) or falsy value yields the empty string, any other
value is coerced with `String(...)`; the result is trimmed. -/
def coerceField (v : Option Json) : String :=
  jsTrim (match v with
          | none => ""
          | some j => if j.isFalsy then "" else jsToString j)

/-- `Array.isArray(c) ? c.map(String) : []` applied to the possibly-absent
`criteria` field value. -/
def coerceCriteria (v : Option Json) : List String :=
  match v with
  | some (.arr l) => l.map jsToString
  | _ => []

/-! ### Model-output text extraction (lines 128-148, 158-171 / 358-362, 396-411) -/

/-- Inner loop of `extractTextFromResponsesOutput`: the first content item
that is truthy and has a `text` field of string type with non-empty trim
gives that trimmed text.  A falsy item is skipped by the `c &&` guard, and
property access on a truthy non-object yields `undefined`, so only object
items can match. -/
def scanContent : List Json → Option String
  | [] => none
  | c :: rest =>
    match c with
    | .obj fs =>
      match jsProp (.obj fs) "text" with
      | some (.str t) => if jsTrim t ≠ "" then some (jsTrim t) else scanContent rest
      | _ => scanContent rest
    | _ => scanContent rest

/-- Outer loop of `extractTextFromResponsesOutput`: output items are
scanned in order; reading `item.content` on a `null` item throws, which the
surrounding `try` converts into an abort (`Except.error`). -/
def scanOutput : List Json → Except Unit (Option String)
  | [] => .ok none
  | item :: rest =>
    if item.isNull then .error ()
    else
      let content : List Json :=
        match jsProp item "content" with
        | some (.arr l) => l
        | _ => []
      match scanContent content with
      | some t => .ok (some t)
      | none => scanOutput rest

/-- `extractTextFromResponsesOutput` (lines 158-171 / 396-411): scan
`d.output` for the first non-empty trimmed `text` field; any thrown
`TypeError` (from `d` itself or an output item being `null`) is caught and
yields the empty string. -/
def extractTextFromResponsesOutput (d : Json) : String :=
  if d.isNull then ""
  else
    let out : List Json :=
      match jsProp d "output" with
      | some (.arr l) => l
      | _ => []
    match scanOutput out with
    | .ok (some t) => t
    | _ => ""

/-- The `jsonText` expression (lines 128-131 / 359-362): the trimmed
top-level `output_text` when it is a string with non-empty trim, otherwise
the nested-scan fallback (which already yields `""` in the no-text case).
Callers guard against `d` being `null`, where `d.output_text` throws. -/
def jsonTextOf (d : Json) : String :=
  let t : String :=
    match jsProp d "output_text" with
    | some (.str s) => jsTrim s
    | _ => ""
  if t ≠ "" then t else extractTextFromResponsesOutput d

/-! ### The two handler variants -/

/-- Guardrail stage shared verbatim by both variants (lines 40-64 /
254-299): field coercion (which throws on a `null` body), the
`response_text` length check, the `learning_objective` presence check and
the `OPENAI_API_KEY` presence check; `k` is the rest of the handler. -/
def guardStage (ao : String) (b : Json) (env : Env)
    (k : Except Unit WResponse) : Except Unit WResponse :=
  if b.isNull then .error ()
  else
    let responseText := coerceField (jsProp b "response_text")
    let learningObjective := coerceField (jsProp b "learning_objective")
    if responseText.length < 10 ∨ 2000 < responseText.length then
      .ok (jsonResp 400 (ctCors (some ao)) (.obj [("error", .str "Response length out of range")]))
    else if learningObjective = "" then
      .ok (jsonResp 400 (ctCors (some ao)) (.obj [("error", .str "Missing learning_objective")]))
    else if env.OPENAI_API_KEY = "" then
      .ok (jsonResp 500 (ctCors (some ao)) (.obj [("error", .str "Missing OPENAI_API_KEY")]))
    else k

/-- Upstream stage of variant 1 (lines 101-153): an unguarded transport
rejection escapes; a non-2xx status yields the 502 response; an unguarded
`openaiResp.json()` rejection escapes; a `null` payload throws at
`data.output_text`; a non-JSON extracted text yields the 500 response
(with the `openai_response_preview` diagnostic field); otherwise the parsed
value is re-serialized as the 200 response. -/
def upstreamStage1 (ao : String) (up : UpstreamOutcome) : Except Unit WResponse :=
  if up.rejects then .error ()
  else if !up.ok then
    .ok (jsonResp 502 (ctCors (some ao))
      (.obj [("error", .str "OpenAI error"), ("detail", .str (jsSlice up.errText 300))]))
  else
    match up.respJson with
    | none => .error ()
    | some data =>
      if data.isNull then .error ()
      else
        match parseJson (jsonTextOf data) with
        | none =>
          .ok (jsonResp 500 (ctCors (some ao))
            (.obj [("error", .str "Model returned non-JSON"),
                   ("raw", .str (jsSlice (jsonTextOf data) 400)),
                   ("openai_response_preview", .str (jsSlice (stringify data) 800))]))
        | some parsed => .ok ⟨200, ctCors (some ao), some (stringify parsed)⟩

/-- Upstream stage of variant 2 (lines 326-390): as variant 1 but the 500
body has no `openai_response_preview` field. -/
def upstreamStage2 (ao : String) (up : UpstreamOutcome) : Except Unit WResponse :=
  if up.rejects then .error ()
  else if !up.ok then
    .ok (jsonResp 502 (ctCors (some ao))
      (.obj [("error", .str "OpenAI error"), ("detail", .str (jsSlice up.errText 300))]))
  else
    match up.respJson with
    | none => .error ()
    | some data =>
      if data.isNull then .error ()
      else
        match parseJson (jsonTextOf data) with
        | none =>
          .ok (jsonResp 500 (ctCors (some ao))
            (.obj [("error", .str "Model returned non-JSON"),
                   ("raw", .str (jsSlice (jsonTextOf data) 400))]))
        | some parsed => .ok ⟨200, ctCors (some ao), some (stringify parsed)⟩

/-- Variant 1 handler `fetch` (lines 5-155). -/
def fetch1 (request : Request) (env : Env) (up : UpstreamOutcome) :
    Except Unit WResponse :=
  let origin := request.originHeader.getD ""
  let allowedOrigin := isAllowedOrigin1 origin
  if request.method = "OPTIONS" then
    .ok ⟨204, corsHeaders allowedOrigin, none⟩
  else if request.method ≠ "POST" then
    .ok ⟨405, [], some "Method not allowed"⟩
  else
    match allowedOrigin with
    | none =>
      .ok (jsonResp 403 [("Content-Type", "application/json")]
        (.obj [("error", .str "Origin not allowed"), ("origin", .str origin)]))
    | some ao =>
      match request.body with
      | none => .ok (jsonResp 400 (ctCors (some ao)) (.obj [("error", .str "Invalid JSON")]))
      | some b => guardStage ao b env (upstreamStage1 ao up)

/-- Variant 2 handler `fetch` (lines 205-392); it differs from variant 1 in
the origin constant, in the 403 branch (which spreads `corsHeaders(origin)`
over the raw request origin), and in the 500 body. -/
def fetch2 (request : Request) (env : Env) (up : UpstreamOutcome) :
    Except Unit WResponse :=
  let origin := request.originHeader.getD ""
  let allowedOrigin := isAllowedOrigin2 origin
  if request.method = "OPTIONS" then
    .ok ⟨204, corsHeaders allowedOrigin, none⟩
  else if request.method ≠ "POST" then
    .ok ⟨405, [], some "Method not allowed"⟩
  else
    match allowedOrigin with
    | none =>
      .ok (jsonResp 403 (ctCors (some origin))
        (.obj [("error", .str "Origin not allowed"), ("origin", .str origin)]))
    | some ao =>
      match request.body with
      | none => .ok (jsonResp 400 (ctCors (some ao)) (.obj [("error", .str "Invalid JSON")]))
      | some b => guardStage ao b env (upstreamStage2 ao up)

/-! ### Spec-side reformulations

`claimExtract` follows the words of claim C6 (a total in-order scan); the
code-side `jsonTextOf` aborts the scan at a `null` output item.  The other
definitions are neutral reformulation helpers used to state extraction
properties without restating the loops. -/

/-- The `output` items of a model payload, as read by the worker. -/
def outputItemsOf (d : Json) : List Json :=
  match jsProp d "output" with
  | some (.arr l) => l
  | _ => []

/-- The `content` items of one output item, as read by the worker. -/
def contentItemsOf (item : Json) : List Json :=
  match jsProp item "content" with
  | some (.arr l) => l
  | _ => []

/-- The candidate text of one content item: the trimmed `text` field when
it is a string with non-empty trim (only object items qualify). -/
def textOf (c : Json) : Option String :=
  match c with
  | .obj fs =>
    match jsProp (.obj fs) "text" with
    | some (.str t) => if jsTrim t ≠ "" then some (jsTrim t) else none
    | _ => none
  | _ => none

/-- The trimmed top-level `output_text` when it is of string type, else the
empty string. -/
def topTextOf (d : Json) : String :=
  match jsProp d "output_text" with
  | some (.str s) => jsTrim s
  | _ => ""

/-- Modelled from the spec (claim C6 wording): prefer a non-empty trimmed
top-level `output_text`; otherwise the first non-empty trimmed `text` field
found scanning ALL nested output items' content items in order; otherwise
the empty string.  This ignores the abort-on-`null`-item behaviour of the
code. -/
def claimExtract (d : Json) : String :=
  if topTextOf d ≠ "" then topTextOf d
  else ((((outputItemsOf d).map contentItemsOf).flatten).findSome? textOf).getD ""

/-- Status of a handler outcome (0 for an escaped exception). -/
def statusOf : Except Unit WResponse → Nat
  | .ok r => r.status
  | .error _ => 0

/-- Headers of a handler outcome. -/
def headersOf : Except Unit WResponse → List (String × String)
  | .ok r => r.headers
  | .error _ => []

/-- Body of a handler outcome. -/
def bodyOf : Except Unit WResponse → Option String
  | .ok r => r.body
  | .error _ => none

/-! ### Helper lemmas -/

theorem isAllowedOrigin1_eq_some {o ao : String}
    (h : isAllowedOrigin1 o = some ao) : ao = o ∧ o ≠ "" := by
  unfold isAllowedOrigin1 at h
  split_ifs at h with h1 h2 h3
  · exact ⟨(Option.some.inj h).symm, h1⟩
  · exact ⟨(Option.some.inj h).symm, h1⟩

theorem isAllowedOrigin2_eq_some {o ao : String}
    (h : isAllowedOrigin2 o = some ao) : ao = o ∧ o ≠ "" := by
  unfold isAllowedOrigin2 at h
  split_ifs at h with h1 h2 h3
  · exact ⟨(Option.some.inj h).symm, h1⟩
  · exact ⟨(Option.some.inj h).symm, h1⟩

theorem isAllowedOrigin1_eq_none {o : String}
    (h1 : o ≠ "https://Tessis-RRR.github.io") (h2 : isLocalhost o = false) :
    isAllowedOrigin1 o = none := by
  unfold isAllowedOrigin1
  split_ifs <;> simp_all

theorem hdr_acao_ctCors (st : Nat) (o : String) (b : Option String) (ho : o ≠ "") :
    hdr ⟨st, ctCors (some o), b⟩ "Access-Control-Allow-Origin" = some o := by
  simp [hdr, ctCors, corsHeaders, ho, List.find?]

theorem hdr_acao_ctCors_empty (st : Nat) (b : Option String) :
    hdr ⟨st, ctCors (some ""), b⟩ "Access-Control-Allow-Origin" = none := by
  simp [hdr, ctCors, corsHeaders, List.find?]

theorem hdr_acao_ct_only (st : Nat) (b : Option String) :
    hdr ⟨st, [("Content-Type", "application/json")], b⟩ "Access-Control-Allow-Origin" = none := by
  simp [hdr, List.find?]

theorem hdr_acao_cors_some (st : Nat) (o : String) (b : Option String) (ho : o ≠ "") :
    hdr ⟨st, corsHeaders (some o), b⟩ "Access-Control-Allow-Origin" = some o := by
  simp [hdr, corsHeaders, ho, List.find?]

theorem hdr_acao_nil (st : Nat) (b : Option String) :
    hdr ⟨st, [], b⟩ "Access-Control-Allow-Origin" = none := by
  simp [hdr, List.find?]

/-! ### Claim theorems -/

/-- C8: for every request with method `OPTIONS`, regardless of origin, body
or configuration, the handler returns 204 with an empty (`null`) body and
the CORS headers computed from the resolved allowed origin (none when the
origin is not allowed), and the result does not depend on the upstream
outcome (the grading client is never invoked). -/
theorem c8_preflight (req : Request) (env : Env) (up : UpstreamOutcome)
    (hm : req.method = "OPTIONS") :
    fetch1 req env up =
      .ok ⟨204, corsHeaders (isAllowedOrigin1 (req.originHeader.getD "")), none⟩ ∧
    (∀ up2 : UpstreamOutcome, fetch1 req env up2 = fetch1 req env up) := by
  constructor
  · simp [fetch1, hm]
  · intro up2
    simp [fetch1, hm]

/-- C8 witness: a concrete `OPTIONS` request from a disallowed origin. -/
theorem c8_preflight_witness :
    fetch1 ⟨"OPTIONS", some "https://evil.example", none⟩ ⟨""⟩ ⟨true, false, "x", none⟩ =
      .ok ⟨204, corsHeaders (isAllowedOrigin1 ((some "https://evil.example" : Option String).getD "")), none⟩ ∧
    (∀ up2 : UpstreamOutcome,
       fetch1 ⟨"OPTIONS", some "https://evil.example", none⟩ ⟨""⟩ up2 =
       fetch1 ⟨"OPTIONS", some "https://evil.example", none⟩ ⟨""⟩ ⟨true, false, "x", none⟩) :=
  c8_preflight ⟨"OPTIONS", some "https://evil.example", none⟩ ⟨""⟩ ⟨true, false, "x", none⟩ rfl

/-- C3: for every POST request whose resolved `Origin` header is absent,
empty, or neither exactly the configured string
`https://Tessis-RRR.github.io` nor of the form `http://localhost:<digits>`,
variant 1 returns 403 with a JSON body naming the rejected origin, and the
result does not depend on the upstream outcome (the grading API is never
called), regardless of the request body. -/
theorem c3_origin_gate (req : Request) (env : Env) (up : UpstreamOutcome)
    (hm : req.method = "POST")
    (h1 : req.originHeader.getD "" ≠ "https://Tessis-RRR.github.io")
    (h2 : isLocalhost (req.originHeader.getD "") = false) :
    fetch1 req env up =
      .ok (jsonResp 403 [("Content-Type", "application/json")]
        (.obj [("error", .str "Origin not allowed"),
               ("origin", .str (req.originHeader.getD ""))])) ∧
    (∀ up2 : UpstreamOutcome, fetch1 req env up2 = fetch1 req env up) := by
  have hao := isAllowedOrigin1_eq_none h1 h2
  constructor
  · simp [fetch1, hm, hao]
  · intro up2
    simp [fetch1, hm, hao]

/-- C3 witness: a POST from a disallowed origin with an unparseable body is
rejected with 403 independently of the upstream outcome. -/
theorem c3_origin_gate_witness :
    fetch1 ⟨"POST", some "https://evil.example", none⟩ ⟨"sk"⟩ ⟨false, true, "", none⟩ =
      .ok (jsonResp 403 [("Content-Type", "application/json")]
        (.obj [("error", .str "Origin not allowed"),
               ("origin", .str ((some "https://evil.example" : Option String).getD ""))])) ∧
    (∀ up2 : UpstreamOutcome,
       fetch1 ⟨"POST", some "https://evil.example", none⟩ ⟨"sk"⟩ up2 =
       fetch1 ⟨"POST", some "https://evil.example", none⟩ ⟨"sk"⟩ ⟨false, true, "", none⟩) :=
  c3_origin_gate ⟨"POST", some "https://evil.example", none⟩ ⟨"sk"⟩ ⟨false, true, "", none⟩
    rfl (by decide) (by decide)

theorem Json.isNull_iff (d : Json) : d.isNull = true ↔ d = .null := by
  cases d <;> simp [Json.isNull]

theorem guardStage_cases (ao : String) (b : Json) (env : Env) (k : Except Unit WResponse) :
    (b.isNull = true ∧ guardStage ao b env k = .error ()) ∨
    guardStage ao b env k =
      .ok (jsonResp 400 (ctCors (some ao)) (.obj [("error", .str "Response length out of range")])) ∨
    guardStage ao b env k =
      .ok (jsonResp 400 (ctCors (some ao)) (.obj [("error", .str "Missing learning_objective")])) ∨
    guardStage ao b env k =
      .ok (jsonResp 500 (ctCors (some ao)) (.obj [("error", .str "Missing OPENAI_API_KEY")])) ∨
    guardStage ao b env k = k := by
  simp only [guardStage]
  split_ifs with h1 h2 h3 h4
  · exact Or.inl ⟨h1, rfl⟩
  · exact Or.inr (Or.inl rfl)
  · exact Or.inr (Or.inr (Or.inl rfl))
  · exact Or.inr (Or.inr (Or.inr (Or.inl rfl)))
  · exact Or.inr (Or.inr (Or.inr (Or.inr rfl)))

theorem guardStage_error (ao : String) (b : Json) (env : Env)
    (k : Except Unit WResponse) (h : guardStage ao b env k = .error ()) :
    b = .null ∨ k = .error () := by
  rcases guardStage_cases ao b env k with ⟨h1, _⟩ | h1 | h1 | h1 | h1
  · exact Or.inl ((Json.isNull_iff b).1 h1)
  · rw [h1] at h
    exact absurd h (by simp)
  · rw [h1] at h
    exact absurd h (by simp)
  · rw [h1] at h
    exact absurd h (by simp)
  · exact Or.inr (h1 ▸ h)

theorem Json.not_null_isNull {d : Json} (hn : d ≠ .null) : d.isNull = false := by
  cases d <;> simp_all [Json.isNull]

theorem upstreamStage1_cases (ao : String) (up : UpstreamOutcome) :
    upstreamStage1 ao up = .error () ∨
    upstreamStage1 ao up =
      .ok (jsonResp 502 (ctCors (some ao))
        (.obj [("error", .str "OpenAI error"), ("detail", .str (jsSlice up.errText 300))])) ∨
    (∃ d, up.respJson = some d ∧ parseJson (jsonTextOf d) = none ∧
      upstreamStage1 ao up =
        .ok (jsonResp 500 (ctCors (some ao))
          (.obj [("error", .str "Model returned non-JSON"),
                 ("raw", .str (jsSlice (jsonTextOf d) 400)),
                 ("openai_response_preview", .str (jsSlice (stringify d) 800))]))) ∨
    (∃ v, upstreamStage1 ao up = .ok ⟨200, ctCors (some ao), some (stringify v)⟩) := by
  by_cases h1 : up.rejects = true
  · refine Or.inl ?_
    simp [upstreamStage1, h1]
  · by_cases hok : up.ok = true
    · rcases hj : up.respJson with _ | d
      · refine Or.inl ?_
        simp [upstreamStage1, h1, hok, hj]
      · by_cases hn : d = Json.null
        · refine Or.inl ?_
          subst hn
          simp [upstreamStage1, h1, hok, hj, Json.isNull]
        · rcases hp : parseJson (jsonTextOf d) with _ | v
          · refine Or.inr (Or.inr (Or.inl ⟨d, rfl, hp, ?_⟩))
            simp [upstreamStage1, h1, hok, hj, Json.not_null_isNull hn, hp]
          · refine Or.inr (Or.inr (Or.inr ⟨v, ?_⟩))
            simp [upstreamStage1, h1, hok, hj, Json.not_null_isNull hn, hp, jsonResp]
    · refine Or.inr (Or.inl ?_)
      simp only [Bool.not_eq_true] at hok
      simp [upstreamStage1, h1, hok]

theorem upstreamStage1_error (ao : String) (up : UpstreamOutcome)
    (h : upstreamStage1 ao up = .error ()) :
    up.rejects = true ∨ (up.ok = true ∧ (up.respJson = none ∨ up.respJson = some .null)) := by
  by_cases h1 : up.rejects = true
  · exact Or.inl h1
  · by_cases hok : up.ok = true
    · rcases hj : up.respJson with _ | d
      · exact Or.inr ⟨hok, Or.inl rfl⟩
      · by_cases hn : d = Json.null
        · exact Or.inr ⟨hok, Or.inr (by rw [hn])⟩
        · exfalso
          rcases hp : parseJson (jsonTextOf d) with _ | v <;>
            simp [upstreamStage1, h1, hok, hj, Json.not_null_isNull hn, hp, jsonResp] at h
    · exfalso
      simp only [Bool.not_eq_true] at hok
      simp [upstreamStage1, h1, hok, jsonResp] at h

theorem fetch1_reduce (req : Request) (env : Env) (up : UpstreamOutcome) (b : Json)
    (hP : req.method = "POST")
    (hao : isAllowedOrigin1 (req.originHeader.getD "") = some (req.originHeader.getD ""))
    (hb : req.body = some b) :
    fetch1 req env up = guardStage (req.originHeader.getD "") b env
      (upstreamStage1 (req.originHeader.getD "") up) := by
  simp [fetch1, hP, hao, hb]

theorem fetch1_shape (req : Request) (env : Env) (up : UpstreamOutcome) :
    fetch1 req env up = .error () ∨
    fetch1 req env up = .ok ⟨204, corsHeaders (isAllowedOrigin1 (req.originHeader.getD "")), none⟩ ∨
    fetch1 req env up = .ok ⟨405, [], some "Method not allowed"⟩ ∨
    (isAllowedOrigin1 (req.originHeader.getD "") = none ∧
      fetch1 req env up =
        .ok ⟨403, [("Content-Type", "application/json")],
          some (stringify (.obj [("error", .str "Origin not allowed"),
                                 ("origin", .str (req.originHeader.getD ""))]))⟩) ∨
    (∃ st msg rest,
      (st = 400 ∨ st = 500 ∨ st = 502) ∧
      isAllowedOrigin1 (req.originHeader.getD "") = some (req.originHeader.getD "") ∧
      req.originHeader.getD "" ≠ "" ∧
      fetch1 req env up =
        .ok ⟨st, ctCors (some (req.originHeader.getD "")),
             some (stringify (.obj (("error", Json.str msg) :: rest)))⟩) ∨
    (∃ v,
      isAllowedOrigin1 (req.originHeader.getD "") = some (req.originHeader.getD "") ∧
      req.originHeader.getD "" ≠ "" ∧
      fetch1 req env up =
        .ok ⟨200, ctCors (some (req.originHeader.getD "")), some (stringify v)⟩) := by
  by_cases hO : req.method = "OPTIONS"
  · refine Or.inr (Or.inl ?_)
    simp [fetch1, hO]
  · by_cases hP : req.method = "POST"
    · rcases hao : isAllowedOrigin1 (req.originHeader.getD "") with _ | ao
      · refine Or.inr (Or.inr (Or.inr (Or.inl ⟨rfl, ?_⟩)))
        simp [fetch1, hO, hP, hao, jsonResp]
      · obtain ⟨rfl, hne⟩ := isAllowedOrigin1_eq_some hao
        rcases hb : req.body with _ | b
        · refine Or.inr (Or.inr (Or.inr (Or.inr (Or.inl
            ⟨400, "Invalid JSON", [], Or.inl rfl, rfl, hne, ?_⟩))))
          simp [fetch1, hO, hP, hao, hb, jsonResp]
        · have hred := fetch1_reduce req env up b hP hao hb
          rcases guardStage_cases (req.originHeader.getD "") b env
              (upstreamStage1 (req.originHeader.getD "") up) with
            ⟨_, hg⟩ | hg | hg | hg | hg
          · exact Or.inl (hred.trans hg)
          · exact Or.inr (Or.inr (Or.inr (Or.inr (Or.inl
              ⟨400, "Response length out of range", [], Or.inl rfl, rfl, hne,
               (hred.trans hg)⟩))))
          · exact Or.inr (Or.inr (Or.inr (Or.inr (Or.inl
              ⟨400, "Missing learning_objective", [], Or.inl rfl, rfl, hne,
               (hred.trans hg)⟩))))
          · exact Or.inr (Or.inr (Or.inr (Or.inr (Or.inl
              ⟨500, "Missing OPENAI_API_KEY", [], Or.inr (Or.inl rfl), rfl, hne,
               (hred.trans hg)⟩))))
          · rw [hg] at hred
            rcases upstreamStage1_cases (req.originHeader.getD "") up with
              hu | hu | ⟨d, hd, hp, hu⟩ | ⟨v, hu⟩
            · exact Or.inl (hred.trans hu)
            · exact Or.inr (Or.inr (Or.inr (Or.inr (Or.inl
                ⟨502, "OpenAI error", [("detail", .str (jsSlice up.errText 300))],
                 Or.inr (Or.inr rfl), rfl, hne, (hred.trans hu)⟩))))
            · exact Or.inr (Or.inr (Or.inr (Or.inr (Or.inl
                ⟨500, "Model returned non-JSON",
                 [("raw", .str (jsSlice (jsonTextOf d) 400)),
                  ("openai_response_preview", .str (jsSlice (stringify d) 800))],
                 Or.inr (Or.inl rfl), rfl, hne, (hred.trans hu)⟩))))
            · exact Or.inr (Or.inr (Or.inr (Or.inr (Or.inr
                ⟨v, rfl, hne, (hred.trans hu)⟩))))
    · refine Or.inr (Or.inr (Or.inl ?_))
      simp [fetch1, hO, hP]

theorem fetch1_error_cases (req : Request) (env : Env) (up : UpstreamOutcome)
    (h : fetch1 req env up = .error ()) :
    req.body = some .null ∨ up.rejects = true ∨
      (up.ok = true ∧ (up.respJson = none ∨ up.respJson = some .null)) := by
  by_cases hO : req.method = "OPTIONS"
  · simp [fetch1, hO] at h
  · by_cases hP : req.method = "POST"
    · rcases hao : isAllowedOrigin1 (req.originHeader.getD "") with _ | ao
      · simp [fetch1, hO, hP, hao, jsonResp] at h
      · obtain ⟨rfl, hne⟩ := isAllowedOrigin1_eq_some hao
        rcases hb : req.body with _ | b
        · simp [fetch1, hO, hP, hao, hb, jsonResp] at h
        · have hred := fetch1_reduce req env up b hP hao hb
          rw [hred] at h
          rcases guardStage_error _ _ _ _ h with hnull | hup
          · exact Or.inl (by rw [hnull])
          · exact Or.inr (upstreamStage1_error _ _ hup)
    · simp [fetch1, hO, hP] at h

/-- C4: for every accepted POST (method POST, allowed origin, parsed
non-null body), if `response_text` coerced to a string and trimmed has
length below 10 or above 2000 then variant 1 answers 400 "Response length
out of range" without consulting the upstream outcome; and if the trimmed
length lies in [10, 2000] the length rejection is never emitted. -/
theorem c4_length_guardrail (req : Request) (env : Env) (up : UpstreamOutcome)
    (b : Json)
    (hm : req.method = "POST")
    (hao : isAllowedOrigin1 (req.originHeader.getD "") = some (req.originHeader.getD ""))
    (hb : req.body = some b) (hnn : b.isNull = false) :
    ((coerceField (jsProp b "response_text")).length < 10 ∨
        2000 < (coerceField (jsProp b "response_text")).length →
      fetch1 req env up =
        .ok (jsonResp 400 (ctCors (some (req.originHeader.getD "")))
          (.obj [("error", .str "Response length out of range")])) ∧
      ∀ up2 : UpstreamOutcome, fetch1 req env up2 = fetch1 req env up) ∧
    (10 ≤ (coerceField (jsProp b "response_text")).length →
      (coerceField (jsProp b "response_text")).length ≤ 2000 →
      ∀ r, fetch1 req env up = .ok r →
        ¬(r.status = 400 ∧
          r.body = some (stringify (.obj [("error", .str "Response length out of range")])))) := by
  constructor
  · intro hlen
    constructor
    · rw [fetch1_reduce req env up b hm hao hb]
      simp only [guardStage, hnn, Bool.false_eq_true, if_false]
      rw [if_pos hlen]
    · intro up2
      rw [fetch1_reduce req env up2 b hm hao hb, fetch1_reduce req env up b hm hao hb]
      simp only [guardStage, hnn, Bool.false_eq_true, if_false]
      rw [if_pos hlen, if_pos hlen]
  · intro h10 h20 r hr
    rintro ⟨hst, hbody⟩
    rw [fetch1_reduce req env up b hm hao hb] at hr
    simp only [guardStage, hnn, Bool.false_eq_true, if_false] at hr
    rw [if_neg (by omega)] at hr
    split_ifs at hr with hobj hkey
    · injection hr with hr2
      subst hr2
      simp only [jsonResp] at hbody
      exact absurd (Option.some.inj hbody) (by decide)
    · injection hr with hr2
      subst hr2
      simp [jsonResp] at hst
    · rcases upstreamStage1_cases (req.originHeader.getD "") up with
        hu | hu | ⟨d, hd, hp, hu⟩ | ⟨v, hu⟩ <;> rw [hu] at hr
      · exact absurd hr (by simp)
      · injection hr with hr2
        subst hr2
        simp [jsonResp] at hst
      · injection hr with hr2
        subst hr2
        simp [jsonResp] at hst
      · injection hr with hr2
        subst hr2
        simp at hst

/-- C4 witness: a 5-character `response_text` is rejected with 400
independently of the upstream outcome. -/
theorem c4_length_guardrail_witness :
    fetch1 ⟨"POST", some "http://localhost:3000",
        some (.obj [("response_text", .str "short"), ("learning_objective", .str "obj")])⟩
        ⟨"sk"⟩ ⟨false, true, "", none⟩ =
      .ok (jsonResp 400 (ctCors (some "http://localhost:3000"))
        (.obj [("error", .str "Response length out of range")])) ∧
    ∀ up2 : UpstreamOutcome,
      fetch1 ⟨"POST", some "http://localhost:3000",
          some (.obj [("response_text", .str "short"), ("learning_objective", .str "obj")])⟩
          ⟨"sk"⟩ up2 =
      fetch1 ⟨"POST", some "http://localhost:3000",
          some (.obj [("response_text", .str "short"), ("learning_objective", .str "obj")])⟩
          ⟨"sk"⟩ ⟨false, true, "", none⟩ :=
  (c4_length_guardrail
    ⟨"POST", some "http://localhost:3000",
     some (.obj [("response_text", .str "short"), ("learning_objective", .str "obj")])⟩
    ⟨"sk"⟩ ⟨false, true, "", none⟩
    (.obj [("response_text", .str "short"), ("learning_objective", .str "obj")])
    rfl rfl rfl rfl).1 (by decide)

/-- C7: for every accepted and validated POST (origin allowed, body a
non-null JSON value, trimmed `response_text` length within range, non-empty
`learning_objective`, API key configured), if the upstream call responds
(does not reject) with a non-2xx status, variant 1 answers 502 with an
`error` field and a `detail` field holding the first at-most-300 characters
of the upstream error body. -/
theorem c7_upstream_failure (req : Request) (env : Env) (up : UpstreamOutcome)
    (b : Json)
    (hm : req.method = "POST")
    (hao : isAllowedOrigin1 (req.originHeader.getD "") = some (req.originHeader.getD ""))
    (hb : req.body = some b) (hnn : b.isNull = false)
    (hlen1 : 10 ≤ (coerceField (jsProp b "response_text")).length)
    (hlen2 : (coerceField (jsProp b "response_text")).length ≤ 2000)
    (hobj : coerceField (jsProp b "learning_objective") ≠ "")
    (hkey : env.OPENAI_API_KEY ≠ "")
    (hrej : up.rejects = false) (hfail : up.ok = false) :
    fetch1 req env up =
      .ok (jsonResp 502 (ctCors (some (req.originHeader.getD "")))
        (.obj [("error", .str "OpenAI error"),
               ("detail", .str (jsSlice up.errText 300))])) := by
  rw [fetch1_reduce req env up b hm hao hb]
  simp only [guardStage, hnn, Bool.false_eq_true, if_false]
  rw [if_neg (by omega), if_neg hobj, if_neg hkey]
  simp [upstreamStage1, hrej, hfail]

/-- C7 witness: a concrete valid request against a failing upstream. -/
theorem c7_upstream_failure_witness :
    fetch1 ⟨"POST", some "http://localhost:3000",
        some (.obj [("response_text", .str "hello there world"), ("learning_objective", .str "obj")])⟩
        ⟨"sk"⟩ ⟨false, false, "upstream broke badly", none⟩ =
      .ok (jsonResp 502 (ctCors (some "http://localhost:3000"))
        (.obj [("error", .str "OpenAI error"),
               ("detail", .str (jsSlice "upstream broke badly" 300))])) :=
  c7_upstream_failure
    ⟨"POST", some "http://localhost:3000",
     some (.obj [("response_text", .str "hello there world"), ("learning_objective", .str "obj")])⟩
    ⟨"sk"⟩ ⟨false, false, "upstream broke badly", none⟩
    (.obj [("response_text", .str "hello there world"), ("learning_objective", .str "obj")])
    rfl rfl rfl rfl (by decide) (by decide) (by decide) (by decide) rfl rfl

/-- C5: for every accepted and validated POST, whenever the upstream call
succeeds (2xx) with a non-null JSON payload whose extracted text parses as
a JSON value `v`, variant 1 answers 200 with body exactly
`JSON.stringify v` — whatever `v` is: no verdict enum, required keys or
`criteria_feedback` shape is enforced. -/
theorem c5_round_trip (req : Request) (env : Env) (up : UpstreamOutcome)
    (b d v : Json)
    (hm : req.method = "POST")
    (hao : isAllowedOrigin1 (req.originHeader.getD "") = some (req.originHeader.getD ""))
    (hb : req.body = some b) (hnn : b.isNull = false)
    (hlen1 : 10 ≤ (coerceField (jsProp b "response_text")).length)
    (hlen2 : (coerceField (jsProp b "response_text")).length ≤ 2000)
    (hobj : coerceField (jsProp b "learning_objective") ≠ "")
    (hkey : env.OPENAI_API_KEY ≠ "")
    (hrej : up.rejects = false) (hok : up.ok = true)
    (hd : up.respJson = some d) (hdn : d.isNull = false)
    (hp : parseJson (jsonTextOf d) = some v) :
    fetch1 req env up =
      .ok ⟨200, ctCors (some (req.originHeader.getD "")), some (stringify v)⟩ := by
  rw [fetch1_reduce req env up b hm hao hb]
  simp only [guardStage, hnn, Bool.false_eq_true, if_false]
  rw [if_neg (by omega), if_neg hobj, if_neg hkey]
  simp [upstreamStage1, hrej, hok, hd, hdn, hp]

/-- C5 witness: a verdict object that is NOT of the documented shape (wrong
enum value, missing keys) is still passed through verbatim with status 200. -/
theorem c5_round_trip_witness :
    fetch1 ⟨"POST", some "http://localhost:3000",
        some (.obj [("response_text", .str "hello there world"), ("learning_objective", .str "obj")])⟩
        ⟨"sk"⟩
        ⟨false, true, "",
         some (.obj [("output_text", .str " \x7b\"verdict\":\"Maybe\"\x7d ")])⟩ =
      .ok ⟨200, ctCors (some "http://localhost:3000"),
           some (stringify (.obj [("verdict", .str "Maybe")]))⟩ :=
  c5_round_trip
    ⟨"POST", some "http://localhost:3000",
     some (.obj [("response_text", .str "hello there world"), ("learning_objective", .str "obj")])⟩
    ⟨"sk"⟩
    ⟨false, true, "", some (.obj [("output_text", .str " \x7b\"verdict\":\"Maybe\"\x7d ")])⟩
    (.obj [("response_text", .str "hello there world"), ("learning_objective", .str "obj")])
    (.obj [("output_text", .str " \x7b\"verdict\":\"Maybe\"\x7d ")])
    (.obj [("verdict", .str "Maybe")])
    rfl rfl rfl rfl (by decide) (by decide) (by decide) (by decide) rfl rfl rfl rfl rfl

theorem upstreamStage2_cases (ao : String) (up : UpstreamOutcome) :
    upstreamStage2 ao up = .error () ∨
    upstreamStage2 ao up =
      .ok (jsonResp 502 (ctCors (some ao))
        (.obj [("error", .str "OpenAI error"), ("detail", .str (jsSlice up.errText 300))])) ∨
    (∃ d, up.respJson = some d ∧ parseJson (jsonTextOf d) = none ∧
      upstreamStage2 ao up =
        .ok (jsonResp 500 (ctCors (some ao))
          (.obj [("error", .str "Model returned non-JSON"),
                 ("raw", .str (jsSlice (jsonTextOf d) 400))]))) ∨
    (∃ v, upstreamStage2 ao up = .ok ⟨200, ctCors (some ao), some (stringify v)⟩) := by
  by_cases h1 : up.rejects = true
  · refine Or.inl ?_
    simp [upstreamStage2, h1]
  · by_cases hok : up.ok = true
    · rcases hj : up.respJson with _ | d
      · refine Or.inl ?_
        simp [upstreamStage2, h1, hok, hj]
      · by_cases hn : d = Json.null
        · refine Or.inl ?_
          subst hn
          simp [upstreamStage2, h1, hok, hj, Json.isNull]
        · rcases hp : parseJson (jsonTextOf d) with _ | v
          · refine Or.inr (Or.inr (Or.inl ⟨d, rfl, hp, ?_⟩))
            simp [upstreamStage2, h1, hok, hj, Json.not_null_isNull hn, hp]
          · refine Or.inr (Or.inr (Or.inr ⟨v, ?_⟩))
            simp [upstreamStage2, h1, hok, hj, Json.not_null_isNull hn, hp, jsonResp]
    · refine Or.inr (Or.inl ?_)
      simp only [Bool.not_eq_true] at hok
      simp [upstreamStage2, h1, hok]

theorem upstreamStage2_error (ao : String) (up : UpstreamOutcome)
    (h : upstreamStage2 ao up = .error ()) :
    up.rejects = true ∨ (up.ok = true ∧ (up.respJson = none ∨ up.respJson = some .null)) := by
  by_cases h1 : up.rejects = true
  · exact Or.inl h1
  · by_cases hok : up.ok = true
    · rcases hj : up.respJson with _ | d
      · exact Or.inr ⟨hok, Or.inl rfl⟩
      · by_cases hn : d = Json.null
        · exact Or.inr ⟨hok, Or.inr (by rw [hn])⟩
        · exfalso
          rcases hp : parseJson (jsonTextOf d) with _ | v <;>
            simp [upstreamStage2, h1, hok, hj, Json.not_null_isNull hn, hp, jsonResp] at h
    · exfalso
      simp only [Bool.not_eq_true] at hok
      simp [upstreamStage2, h1, hok, jsonResp] at h

theorem fetch2_reduce (req : Request) (env : Env) (up : UpstreamOutcome) (b : Json)
    (hP : req.method = "POST")
    (hao : isAllowedOrigin2 (req.originHeader.getD "") = some (req.originHeader.getD ""))
    (hb : req.body = some b) :
    fetch2 req env up = guardStage (req.originHeader.getD "") b env
      (upstreamStage2 (req.originHeader.getD "") up) := by
  simp [fetch2, hP, hao, hb]

theorem fetch2_shape (req : Request) (env : Env) (up : UpstreamOutcome) :
    fetch2 req env up = .error () ∨
    fetch2 req env up = .ok ⟨204, corsHeaders (isAllowedOrigin2 (req.originHeader.getD "")), none⟩ ∨
    fetch2 req env up = .ok ⟨405, [], some "Method not allowed"⟩ ∨
    (isAllowedOrigin2 (req.originHeader.getD "") = none ∧
      fetch2 req env up =
        .ok ⟨403, ctCors (some (req.originHeader.getD "")),
          some (stringify (.obj [("error", .str "Origin not allowed"),
                                 ("origin", .str (req.originHeader.getD ""))]))⟩) ∨
    (∃ st msg rest,
      (st = 400 ∨ st = 500 ∨ st = 502) ∧
      isAllowedOrigin2 (req.originHeader.getD "") = some (req.originHeader.getD "") ∧
      req.originHeader.getD "" ≠ "" ∧
      fetch2 req env up =
        .ok ⟨st, ctCors (some (req.originHeader.getD "")),
             some (stringify (.obj (("error", Json.str msg) :: rest)))⟩) ∨
    (∃ v,
      isAllowedOrigin2 (req.originHeader.getD "") = some (req.originHeader.getD "") ∧
      req.originHeader.getD "" ≠ "" ∧
      fetch2 req env up =
        .ok ⟨200, ctCors (some (req.originHeader.getD "")), some (stringify v)⟩) := by
  by_cases hO : req.method = "OPTIONS"
  · refine Or.inr (Or.inl ?_)
    simp [fetch2, hO]
  · by_cases hP : req.method = "POST"
    · rcases hao : isAllowedOrigin2 (req.originHeader.getD "") with _ | ao
      · refine Or.inr (Or.inr (Or.inr (Or.inl ⟨rfl, ?_⟩)))
        simp [fetch2, hO, hP, hao, jsonResp]
      · obtain ⟨rfl, hne⟩ := isAllowedOrigin2_eq_some hao
        rcases hb : req.body with _ | b
        · refine Or.inr (Or.inr (Or.inr (Or.inr (Or.inl
            ⟨400, "Invalid JSON", [], Or.inl rfl, rfl, hne, ?_⟩))))
          simp [fetch2, hO, hP, hao, hb, jsonResp]
        · have hred := fetch2_reduce req env up b hP hao hb
          rcases guardStage_cases (req.originHeader.getD "") b env
              (upstreamStage2 (req.originHeader.getD "") up) with
            ⟨_, hg⟩ | hg | hg | hg | hg
          · exact Or.inl (hred.trans hg)
          · exact Or.inr (Or.inr (Or.inr (Or.inr (Or.inl
              ⟨400, "Response length out of range", [], Or.inl rfl, rfl, hne,
               (hred.trans hg)⟩))))
          · exact Or.inr (Or.inr (Or.inr (Or.inr (Or.inl
              ⟨400, "Missing learning_objective", [], Or.inl rfl, rfl, hne,
               (hred.trans hg)⟩))))
          · exact Or.inr (Or.inr (Or.inr (Or.inr (Or.inl
              ⟨500, "Missing OPENAI_API_KEY", [], Or.inr (Or.inl rfl), rfl, hne,
               (hred.trans hg)⟩))))
          · rw [hg] at hred
            rcases upstreamStage2_cases (req.originHeader.getD "") up with
              hu | hu | ⟨d, hd, hp, hu⟩ | ⟨v, hu⟩
            · exact Or.inl (hred.trans hu)
            · exact Or.inr (Or.inr (Or.inr (Or.inr (Or.inl
                ⟨502, "OpenAI error", [("detail", .str (jsSlice up.errText 300))],
                 Or.inr (Or.inr rfl), rfl, hne, (hred.trans hu)⟩))))
            · exact Or.inr (Or.inr (Or.inr (Or.inr (Or.inl
                ⟨500, "Model returned non-JSON",
                 [("raw", .str (jsSlice (jsonTextOf d) 400))],
                 Or.inr (Or.inl rfl), rfl, hne, (hred.trans hu)⟩))))
            · exact Or.inr (Or.inr (Or.inr (Or.inr (Or.inr
                ⟨v, rfl, hne, (hred.trans hu)⟩))))
    · refine Or.inr (Or.inr (Or.inl ?_))
      simp [fetch2, hO, hP]

theorem isAllowedOrigin1_isSome {o : String}
    (h : (isAllowedOrigin1 o).isSome = true) :
    isAllowedOrigin1 o = some o ∧ o ≠ "" := by
  rcases hao : isAllowedOrigin1 o with _ | ao
  · rw [hao] at h
    cases h
  · obtain ⟨rfl, hne⟩ := isAllowedOrigin1_eq_some hao
    exact ⟨rfl, hne⟩

theorem isAllowedOrigin2_isSome {o : String}
    (h : (isAllowedOrigin2 o).isSome = true) :
    isAllowedOrigin2 o = some o ∧ o ≠ "" := by
  rcases hao : isAllowedOrigin2 o with _ | ao
  · rw [hao] at h
    cases h
  · obtain ⟨rfl, hne⟩ := isAllowedOrigin2_eq_some hao
    exact ⟨rfl, hne⟩

/-- C1 counterexample: the origin-echo invariant as claimed fails twice on
the code.  (a) A GET request from the allowed origin yields the 405
response, which carries no `Access-Control-Allow-Origin` header at all,
although the origin is allowed.  (b) In variant 2, a POST from a
disallowed non-empty origin yields the 403 response whose
`Access-Control-Allow-Origin` header echoes the disallowed origin, although
the origin is not allowed. -/
theorem c1_counterexample :
    (isAllowedOrigin1 "https://Tessis-RRR.github.io").isSome = true ∧
    fetch1 ⟨"GET", some "https://Tessis-RRR.github.io", none⟩ ⟨"sk"⟩ ⟨false, true, "", none⟩ =
      .ok ⟨405, [], some "Method not allowed"⟩ ∧
    hdr ⟨405, [], some "Method not allowed"⟩ "Access-Control-Allow-Origin" = none ∧
    isAllowedOrigin2 "https://evil.example" = none ∧
    fetch2 ⟨"POST", some "https://evil.example", none⟩ ⟨"sk"⟩ ⟨false, true, "", none⟩ =
      .ok (jsonResp 403 (ctCors (some "https://evil.example"))
        (.obj [("error", .str "Origin not allowed"), ("origin", .str "https://evil.example")])) ∧
    hdr (jsonResp 403 (ctCors (some "https://evil.example"))
        (.obj [("error", .str "Origin not allowed"), ("origin", .str "https://evil.example")]))
      "Access-Control-Allow-Origin" = some "https://evil.example" :=
  ⟨rfl, rfl, rfl, rfl, rfl, rfl⟩

/-- C1 (amended): in both variants, whenever the origin is allowed, every
emitted response except the 405 method-not-allowed response carries
`Access-Control-Allow-Origin` equal to the request origin exactly; whenever
the origin is not allowed, the header is absent — except in variant 2's
403 response, which echoes the raw non-empty disallowed origin. -/
theorem c1_amended :
    (∀ (req : Request) (env : Env) (up : UpstreamOutcome) (r : WResponse),
      fetch1 req env up = .ok r →
        ((isAllowedOrigin1 (req.originHeader.getD "")).isSome = true → r.status ≠ 405 →
          hdr r "Access-Control-Allow-Origin" = some (req.originHeader.getD "")) ∧
        (isAllowedOrigin1 (req.originHeader.getD "") = none →
          hdr r "Access-Control-Allow-Origin" = none)) ∧
    (∀ (req : Request) (env : Env) (up : UpstreamOutcome) (r : WResponse),
      fetch2 req env up = .ok r →
        ((isAllowedOrigin2 (req.originHeader.getD "")).isSome = true → r.status ≠ 405 →
          hdr r "Access-Control-Allow-Origin" = some (req.originHeader.getD "")) ∧
        (isAllowedOrigin2 (req.originHeader.getD "") = none →
          (r.status = 403 ∧ req.originHeader.getD "" ≠ "" →
             hdr r "Access-Control-Allow-Origin" = some (req.originHeader.getD "")) ∧
          (r.status ≠ 403 ∨ req.originHeader.getD "" = "" →
             hdr r "Access-Control-Allow-Origin" = none))) := by
  constructor
  · intro req env up r hr
    rcases fetch1_shape req env up with
      h | h | h | ⟨hao, h⟩ | ⟨st, msg, rest, hst, hao, hne, h⟩ | ⟨v, hao, hne, h⟩
    · rw [hr] at h
      exact absurd h (by simp)
    · rw [hr] at h
      injection h with h2
      subst h2
      constructor
      · intro hsome _
        obtain ⟨hao2, hne⟩ := isAllowedOrigin1_isSome hsome
        rw [hao2]
        exact hdr_acao_cors_some _ _ _ hne
      · intro hnone
        rw [hnone]
        exact hdr_acao_nil _ _
    · rw [hr] at h
      injection h with h2
      subst h2
      constructor
      · intro _ h405
        exact absurd rfl h405
      · intro _
        exact hdr_acao_nil _ _
    · rw [hr] at h
      injection h with h2
      subst h2
      constructor
      · intro hsome _
        rw [hao] at hsome
        cases hsome
      · intro _
        exact hdr_acao_ct_only _ _
    · rw [hr] at h
      injection h with h2
      subst h2
      constructor
      · intro _ _
        exact hdr_acao_ctCors _ _ _ hne
      · intro hnone
        rw [hao] at hnone
        cases hnone
    · rw [hr] at h
      injection h with h2
      subst h2
      constructor
      · intro _ _
        exact hdr_acao_ctCors _ _ _ hne
      · intro hnone
        rw [hao] at hnone
        cases hnone
  · intro req env up r hr
    rcases fetch2_shape req env up with
      h | h | h | ⟨hao, h⟩ | ⟨st, msg, rest, hst, hao, hne, h⟩ | ⟨v, hao, hne, h⟩
    · rw [hr] at h
      exact absurd h (by simp)
    · rw [hr] at h
      injection h with h2
      subst h2
      constructor
      · intro hsome _
        obtain ⟨hao2, hne⟩ := isAllowedOrigin2_isSome hsome
        rw [hao2]
        exact hdr_acao_cors_some _ _ _ hne
      · intro hnone
        refine ⟨fun h403 => absurd h403.1 (by simp), fun _ => ?_⟩
        rw [hnone]
        simp [hdr, corsHeaders, List.find?]
    · rw [hr] at h
      injection h with h2
      subst h2
      constructor
      · intro _ h405
        exact absurd rfl h405
      · intro _
        refine ⟨fun h403 => absurd h403.1 (by decide), fun _ => hdr_acao_nil _ _⟩
    · rw [hr] at h
      injection h with h2
      subst h2
      constructor
      · intro hsome _
        rw [hao] at hsome
        cases hsome
      · intro _
        constructor
        · intro ⟨_, hne⟩
          exact hdr_acao_ctCors _ _ _ hne
        · intro hd
          rcases hd with hd | hd
          · exact absurd rfl hd
          · rw [hd]
            exact hdr_acao_ctCors_empty _ _
    · rw [hr] at h
      injection h with h2
      subst h2
      constructor
      · intro _ _
        exact hdr_acao_ctCors _ _ _ hne
      · intro hnone
        rw [hao] at hnone
        cases hnone
    · rw [hr] at h
      injection h with h2
      subst h2
      constructor
      · intro _ _
        exact hdr_acao_ctCors _ _ _ hne
      · intro hnone
        rw [hao] at hnone
        cases hnone

/-- C1 (amended) witness: a preflight response for an allowed localhost
origin carries that origin in `Access-Control-Allow-Origin`. -/
theorem c1_amended_witness :
    hdr ⟨204, corsHeaders (isAllowedOrigin1 "http://localhost:3000"), none⟩
        "Access-Control-Allow-Origin" = some "http://localhost:3000" :=
  (c1_amended.1 ⟨"OPTIONS", some "http://localhost:3000", none⟩ ⟨""⟩
      ⟨false, false, "", none⟩
      ⟨204, corsHeaders (isAllowedOrigin1 "http://localhost:3000"), none⟩ rfl).1
    rfl (by decide)

/-- C2 counterexample: the 405 response carries the plain-text body
`"Method not allowed"`, which is not JSON (so not a JSON body with an
`error` field); and on a valid request whose 2xx upstream response body is
not valid JSON, the unguarded `await openaiResp.json()` rejection escapes
the handler, so the handler does not terminate normally. -/
theorem c2_counterexample :
    fetch1 ⟨"GET", none, none⟩ ⟨"sk"⟩ ⟨false, true, "", none⟩ =
      .ok ⟨405, [], some "Method not allowed"⟩ ∧
    parseJson "Method not allowed" = none ∧
    fetch1 ⟨"POST", some "http://localhost:3000",
        some (.obj [("response_text", .str "hello there world"),
                    ("learning_objective", .str "obj")])⟩
        ⟨"sk"⟩ ⟨false, true, "", none⟩ = .error () :=
  ⟨rfl, rfl, rfl⟩

/-- C2 (amended): every response other than the 204 preflight and the
plain-text 405 carries a body that is the serialization of a JSON value,
and on the error statuses 400/403/500/502 that value is an object with an
`error` field; the handler terminates normally except when the parsed
request body is JSON `null`, the upstream transport call rejects, or the
upstream 2xx body fails to parse as JSON or parses to `null` (the unguarded
`openaiResp.json()` / property access throws).  Nothing is retried: the
handler consults the upstream outcome at most once. -/
theorem c2_amended :
    (∀ (req : Request) (env : Env) (up : UpstreamOutcome) (r : WResponse),
      fetch1 req env up = .ok r → r.status ≠ 204 → r.status ≠ 405 →
        (∃ j, r.body = some (stringify j)) ∧
        (r.status = 400 ∨ r.status = 403 ∨ r.status = 500 ∨ r.status = 502 →
          ∃ fs, r.body = some (stringify (Json.obj fs)) ∧
            ((fs.find? fun p => p.1 == "error").isSome = true))) ∧
    (∀ (req : Request) (env : Env) (up : UpstreamOutcome),
      fetch1 req env up = .error () →
        req.body = some .null ∨ up.rejects = true ∨
          (up.ok = true ∧ (up.respJson = none ∨ up.respJson = some .null))) := by
  constructor
  · intro req env up r hr h204 h405
    rcases fetch1_shape req env up with
      h | h | h | ⟨hao, h⟩ | ⟨st, msg, rest, hst, hao, hne, h⟩ | ⟨v, hao, hne, h⟩
    · rw [hr] at h
      exact absurd h (by simp)
    · rw [hr] at h
      injection h with h2
      subst h2
      exact absurd rfl h204
    · rw [hr] at h
      injection h with h2
      subst h2
      exact absurd rfl h405
    · rw [hr] at h
      injection h with h2
      subst h2
      exact ⟨⟨_, rfl⟩, fun _ =>
        ⟨[("error", .str "Origin not allowed"),
          ("origin", .str (req.originHeader.getD ""))], rfl, rfl⟩⟩
    · rw [hr] at h
      injection h with h2
      subst h2
      exact ⟨⟨_, rfl⟩, fun _ => ⟨("error", Json.str msg) :: rest, rfl, rfl⟩⟩
    · rw [hr] at h
      injection h with h2
      subst h2
      refine ⟨⟨v, rfl⟩, fun hst => ?_⟩
      rcases hst with h | h | h | h <;> simp at h
  · exact fun req env up h => fetch1_error_cases req env up h

/-- C2 (amended) witness: the 403 response body is the serialization of a
JSON value. -/
theorem c2_amended_witness :
    ∃ j, (jsonResp 403 [("Content-Type", "application/json")]
      (.obj [("error", .str "Origin not allowed"), ("origin", .str "")])).body =
        some (stringify j) :=
  (c2_amended.1 ⟨"POST", none, none⟩ ⟨""⟩ ⟨false, false, "", none⟩
    (jsonResp 403 [("Content-Type", "application/json")]
      (.obj [("error", .str "Origin not allowed"), ("origin", .str "")]))
    rfl (by decide) (by decide)).1

/-- The amended extraction description: prefer the non-empty trimmed
top-level `output_text`; otherwise scan only the output items BEFORE the
first `null` item (the code's scan aborts there), taking the first
content-item text with non-empty trim; otherwise the empty string. -/
def claimExtractAmended (d : Json) : String :=
  if topTextOf d ≠ "" then topTextOf d
  else ((((((outputItemsOf d).takeWhile (fun i => !i.isNull)).map contentItemsOf).flatten).findSome?
    textOf).getD "")

theorem findSomeAppend {α β : Type} (f : α → Option β) (l1 l2 : List α) :
    List.findSome? f (l1 ++ l2) =
      match List.findSome? f l1 with
      | some b => some b
      | none => List.findSome? f l2 := by
  induction l1 with
  | nil => simp
  | cons a l ih =>
    rw [List.cons_append, List.findSome?_cons, List.findSome?_cons]
    cases f a
    · exact ih
    · rfl

theorem scanContent_eq (cs : List Json) : scanContent cs = cs.findSome? textOf := by
  induction cs with
  | nil => rfl
  | cons c rest ih =>
    rw [List.findSome?_cons]
    cases c with
    | obj fs =>
      simp only [scanContent, textOf]
      rcases hj : jsProp (.obj fs) "text" with _ | v
      · simpa using ih
      · cases v <;> simp only [] <;> try exact (by simpa using ih)
        case str s =>
          by_cases ht : jsTrim s ≠ ""
          · simp [ht]
          · simp only [ne_eq, Decidable.not_not] at ht
            simp [ht, ih]
    | null => simpa [scanContent, textOf] using ih
    | bool b => simpa [scanContent, textOf] using ih
    | num n => simpa [scanContent, textOf] using ih
    | str s => simpa [scanContent, textOf] using ih
    | arr l => simpa [scanContent, textOf] using ih

theorem scanOutput_eq (items : List Json) :
    (match scanOutput items with
     | .ok (some t) => t
     | _ => "") =
      ((((items.takeWhile (fun i => !i.isNull)).map contentItemsOf).flatten).findSome?
        textOf).getD "" := by
  induction items with
  | nil => rfl
  | cons item rest ih =>
    by_cases hn : item.isNull = true
    · simp [scanOutput, hn, List.takeWhile_cons]
    · simp only [scanOutput, hn, Bool.false_eq_true, if_false, List.takeWhile_cons]
      simp only [Bool.not_eq_true', Bool.not_eq_false] at hn ⊢
      rw [if_pos (by simp [hn])]
      simp only [List.map_cons, List.flatten_cons]
      rw [findSomeAppend]
      rw [← scanContent_eq]
      have hcontent :
          (match jsProp item "content" with
           | some (.arr l) => l
           | _ => ([] : List Json)) = contentItemsOf item := rfl
      rcases hs : scanContent (contentItemsOf item) with _ | t
      · rw [hcontent, hs]
        exact ih
      · rw [hcontent, hs]
        rfl

theorem extract_eq_amended (d : Json) :
    jsonTextOf d = claimExtractAmended d := by
  by_cases hn : d.isNull = true
  · have : d = .null := (Json.isNull_iff d).1 hn
    subst this
    rfl
  · have htop : (match jsProp d "output_text" with
        | some (.str s) => jsTrim s
        | _ => "") = topTextOf d := rfl
    simp only [jsonTextOf, claimExtractAmended, htop]
    by_cases ht : topTextOf d ≠ ""
    · simp [ht]
    · simp only [ne_eq, Decidable.not_not] at ht
      simp only [ht, ne_eq, not_true_eq_false, if_false, ite_self]
      have e1 : (match jsProp d "output" with
          | some (Json.arr l) => l
          | _ => ([] : List Json)) = outputItemsOf d := rfl
      have hout : extractTextFromResponsesOutput d =
          (match scanOutput (outputItemsOf d) with
           | .ok (some t) => t
           | _ => "") := by
        simp only [extractTextFromResponsesOutput, hn, Bool.false_eq_true, if_false]
        rw [e1]
      rw [hout, scanOutput_eq]

/-- C6 counterexample: on a payload whose `output` list holds a `null` item
before a matching text item, the code's extraction aborts to `""` (the
`try`/`catch` in `extractTextFromResponsesOutput` swallows the `TypeError`
from `item.content`), whereas the claim's description — scan ALL output
items in order — yields that text, which even parses as JSON; the handler
therefore answers 500 with `raw` equal to `""`, not the claimed text. -/
theorem c6_counterexample :
    jsonTextOf (.obj [("output", .arr [.null,
        .obj [("content", .arr [.obj [("text", .str "\"x\"")]])]])]) = "" ∧
    claimExtract (.obj [("output", .arr [.null,
        .obj [("content", .arr [.obj [("text", .str "\"x\"")]])]])]) = "\"x\"" ∧
    ("" : String) ≠ "\"x\"" ∧
    parseJson "\"x\"" = some (.str "x") ∧
    fetch1 ⟨"POST", some "http://localhost:3000",
        some (.obj [("response_text", .str "hello there world"),
                    ("learning_objective", .str "obj")])⟩ ⟨"sk"⟩
        ⟨false, true, "", some (.obj [("output", .arr [.null,
            .obj [("content", .arr [.obj [("text", .str "\"x\"")]])]])])⟩ =
      .ok (jsonResp 500 (ctCors (some "http://localhost:3000"))
        (.obj [("error", .str "Model returned non-JSON"),
               ("raw", .str ""),
               ("openai_response_preview",
                .str (jsSlice (stringify (.obj [("output", .arr [.null,
                  .obj [("content", .arr [.obj [("text", .str "\"x\"")]])]])])) 800))])) :=
  ⟨rfl, rfl, by decide, rfl, rfl⟩

/-- C6 (amended): on an upstream 2xx payload, the handler extracts text by
preferring the trimmed top-level `output_text` string if non-empty,
otherwise the first non-empty trimmed `text` field among the content items
of the output items BEFORE the first `null` output item (the scan aborts
to the empty string at a `null` item), otherwise the empty string; if the
extracted text fails to parse as JSON, variant 1 answers 500 with an
`error` field and a `raw` field holding the first at-most-400 characters
of the extracted text. -/
theorem c6_extraction_amended :
    (∀ d : Json, jsonTextOf d = claimExtractAmended d) ∧
    (∀ (req : Request) (env : Env) (up : UpstreamOutcome) (b d : Json),
      req.method = "POST" →
      isAllowedOrigin1 (req.originHeader.getD "") = some (req.originHeader.getD "") →
      req.body = some b → b.isNull = false →
      10 ≤ (coerceField (jsProp b "response_text")).length →
      (coerceField (jsProp b "response_text")).length ≤ 2000 →
      coerceField (jsProp b "learning_objective") ≠ "" →
      env.OPENAI_API_KEY ≠ "" →
      up.rejects = false → up.ok = true →
      up.respJson = some d → d.isNull = false →
      parseJson (jsonTextOf d) = none →
      fetch1 req env up =
        .ok (jsonResp 500 (ctCors (some (req.originHeader.getD "")))
          (.obj [("error", .str "Model returned non-JSON"),
                 ("raw", .str (jsSlice (jsonTextOf d) 400)),
                 ("openai_response_preview", .str (jsSlice (stringify d) 800))]))) := by
  constructor
  · exact extract_eq_amended
  · intro req env up b d hm hao hb hnn hlen1 hlen2 hobj hkey hrej hok hd hdn hp
    rw [fetch1_reduce req env up b hm hao hb]
    simp only [guardStage, hnn, Bool.false_eq_true, if_false]
    rw [if_neg (by omega), if_neg hobj, if_neg hkey]
    simp [upstreamStage1, hrej, hok, hd, hdn, hp]

/-- C6 (amended) witness: an upstream 2xx payload whose `output_text` is
`"not json"` yields the 500 model-contract response with `raw` equal to
`"not json"`. -/
theorem c6_extraction_amended_witness :
    fetch1 ⟨"POST", some "http://localhost:3000",
        some (.obj [("response_text", .str "hello there world"),
                    ("learning_objective", .str "obj")])⟩ ⟨"sk"⟩
        ⟨false, true, "", some (.obj [("output_text", .str "not json")])⟩ =
      .ok (jsonResp 500 (ctCors (some "http://localhost:3000"))
        (.obj [("error", .str "Model returned non-JSON"),
               ("raw", .str (jsSlice (jsonTextOf (.obj [("output_text", .str "not json")])) 400)),
               ("openai_response_preview",
                .str (jsSlice (stringify (.obj [("output_text", .str "not json")])) 800))])) :=
  c6_extraction_amended.2
    ⟨"POST", some "http://localhost:3000",
     some (.obj [("response_text", .str "hello there world"),
                 ("learning_objective", .str "obj")])⟩ ⟨"sk"⟩
    ⟨false, true, "", some (.obj [("output_text", .str "not json")])⟩
    (.obj [("response_text", .str "hello there world"),
           ("learning_objective", .str "obj")])
    (.obj [("output_text", .str "not json")])
    rfl rfl rfl rfl (by decide) (by decide) (by decide) (by decide)
    rfl rfl rfl rfl rfl

/-- C9 counterexample: the two variants are not behaviorally equal.
(a) A POST from `https://Tessis-RRR.github.io` is accepted by variant 1
(400 for its unparseable body) but rejected 403 by variant 2, whose allow
constant is lowercase.  (b) On a POST from a disallowed origin the two 403
responses carry different headers (variant 2 spreads `corsHeaders` over the
raw origin).  (c) On the model-returned-non-JSON path the two 500 bodies
differ (variant 1 adds `openai_response_preview`). -/
theorem c9_counterexample :
    statusOf (fetch1 ⟨"POST", some "https://Tessis-RRR.github.io", none⟩ ⟨"sk"⟩
      ⟨false, true, "", none⟩) = 400 ∧
    statusOf (fetch2 ⟨"POST", some "https://Tessis-RRR.github.io", none⟩ ⟨"sk"⟩
      ⟨false, true, "", none⟩) = 403 ∧
    headersOf (fetch1 ⟨"POST", some "https://evil.example", none⟩ ⟨"sk"⟩
      ⟨false, true, "", none⟩) = [("Content-Type", "application/json")] ∧
    headersOf (fetch2 ⟨"POST", some "https://evil.example", none⟩ ⟨"sk"⟩
      ⟨false, true, "", none⟩) = ctCors (some "https://evil.example") ∧
    ([("Content-Type", "application/json")] : List (String × String)) ≠
      ctCors (some "https://evil.example") ∧
    bodyOf (fetch1 ⟨"POST", some "http://localhost:3000",
        some (.obj [("response_text", .str "hello there world"),
                    ("learning_objective", .str "obj")])⟩ ⟨"sk"⟩
        ⟨false, true, "", some (.obj [("output_text", .str "not json")])⟩) ≠
      bodyOf (fetch2 ⟨"POST", some "http://localhost:3000",
        some (.obj [("response_text", .str "hello there world"),
                    ("learning_objective", .str "obj")])⟩ ⟨"sk"⟩
        ⟨false, true, "", some (.obj [("output_text", .str "not json")])⟩) :=
  ⟨rfl, rfl, rfl, rfl, by decide, by decide⟩

theorem upstreamStages_eq (ao : String) (up : UpstreamOutcome)
    (h3 : ∀ d : Json, up.respJson = some d → d.isNull = false →
        (parseJson (jsonTextOf d)).isSome = true) :
    upstreamStage2 ao up = upstreamStage1 ao up := by
  by_cases h1 : up.rejects = true
  · simp [upstreamStage1, upstreamStage2, h1]
  · by_cases hok : up.ok = true
    · rcases hj : up.respJson with _ | d
      · simp [upstreamStage1, upstreamStage2, h1, hok, hj]
      · by_cases hn : d = Json.null
        · subst hn
          simp [upstreamStage1, upstreamStage2, h1, hok, hj, Json.isNull]
        · have hs := h3 d hj (Json.not_null_isNull hn)
          rcases hp : parseJson (jsonTextOf d) with _ | v
          · rw [hp] at hs
            cases hs
          · simp [upstreamStage1, upstreamStage2, h1, hok, hj,
              Json.not_null_isNull hn, hp]
    · simp only [Bool.not_eq_true] at hok
      simp [upstreamStage1, upstreamStage2, h1, hok]

/-- C9 (amended): the two handler variants agree on every request,
environment and upstream outcome EXCEPT for their three code differences:
variant 1 allows origin `https://Tessis-RRR.github.io` where variant 2
allows the lowercase `https://tessis-rrr.github.io`; variant 2's 403
response adds CORS headers echoing a non-empty rejected origin; and
variant 1's model-non-JSON 500 body carries an extra
`openai_response_preview` field.  Whenever the two origin policies resolve
the request origin identically, a rejected origin is empty, and the
model-non-JSON branch is not reached, the two variants emit identical
results. -/
theorem c9_variants_amended (req : Request) (env : Env) (up : UpstreamOutcome)
    (h1 : isAllowedOrigin1 (req.originHeader.getD "") =
      isAllowedOrigin2 (req.originHeader.getD ""))
    (h2 : isAllowedOrigin1 (req.originHeader.getD "") = none →
      req.originHeader.getD "" = "")
    (h3 : ∀ d : Json, up.respJson = some d → d.isNull = false →
        (parseJson (jsonTextOf d)).isSome = true) :
    fetch2 req env up = fetch1 req env up := by
  by_cases hO : req.method = "OPTIONS"
  · simp [fetch1, fetch2, hO, h1]
  · by_cases hP : req.method = "POST"
    · rcases hao : isAllowedOrigin1 (req.originHeader.getD "") with _ | ao
      · have hao2 : isAllowedOrigin2 (req.originHeader.getD "") = none := by
          rw [← h1]
          exact hao
        have hor : req.originHeader.getD "" = "" := h2 hao
        simp [fetch1, fetch2, hO, hP, hao, hao2, hor, jsonResp, ctCors, corsHeaders,
          isAllowedOrigin1, isAllowedOrigin2]
      · obtain ⟨rfl, hne⟩ := isAllowedOrigin1_eq_some hao
        have hao2 : isAllowedOrigin2 (req.originHeader.getD "") =
            some (req.originHeader.getD "") := by
          rw [← h1]
          exact hao
        rcases hb : req.body with _ | b
        · simp [fetch1, fetch2, hO, hP, hao, hao2, hb]
        · rw [fetch1_reduce req env up b hP hao hb,
            fetch2_reduce req env up b hP hao2 hb,
            upstreamStages_eq _ up h3]
    · simp [fetch1, fetch2, hO, hP]

/-- C9 (amended) witness: on a localhost origin (allowed by both variants)
and a parseable model payload, the two variants agree. -/
theorem c9_variants_amended_witness :
    fetch2 ⟨"POST", some "http://localhost:3000",
        some (.obj [("response_text", .str "hello there world"),
                    ("learning_objective", .str "obj")])⟩ ⟨"sk"⟩
        ⟨false, true, "", some (.obj [("output_text", .str "\x7b\x7d")])⟩ =
    fetch1 ⟨"POST", some "http://localhost:3000",
        some (.obj [("response_text", .str "hello there world"),
                    ("learning_objective", .str "obj")])⟩ ⟨"sk"⟩
        ⟨false, true, "", some (.obj [("output_text", .str "\x7b\x7d")])⟩ :=
  c9_variants_amended
    ⟨"POST", some "http://localhost:3000",
     some (.obj [("response_text", .str "hello there world"),
                 ("learning_objective", .str "obj")])⟩ ⟨"sk"⟩
    ⟨false, true, "", some (.obj [("output_text", .str "\x7b\x7d")])⟩
    rfl (by decide)
    (fun d hd hdn => by
      injection hd with h
      subst h
      decide)

/-- C10 counterexample: the body parser accepts the JSON value `null`, but
on a `null` body the field extraction `body.response_text` throws a
`TypeError` that escapes the handler — extraction is NOT total over every
accepted JSON value. -/
theorem c10_counterexample :
    fetch1 ⟨"POST", some "http://localhost:3000", some .null⟩ ⟨"sk"⟩
      ⟨false, true, "", none⟩ = .error () :=
  rfl

/-- C10 (amended): for every NON-NULL JSON value the body parser accepts,
field extraction never throws: falsy or absent `response_text` /
`learning_objective` values become the empty string (so an absent field
yields the 400 length rejection, not an exception), truthy non-string
values are coerced with `String()` (an object becomes `"[object Object]"`,
whose length 15 passes the length check), and a non-array `criteria`
becomes the empty list with array elements coerced to strings; any escaped
exception on a non-null body comes from the upstream stage, not from field
extraction.  A JSON-`null` body, by contrast, throws (see the
counterexample). -/
theorem c10_field_extraction_amended :
    (∀ v : Json, v.isFalsy = true → coerceField (some v) = "") ∧
    coerceField none = "" ∧
    (∀ v : Json, v.isFalsy = false → coerceField (some v) = jsTrim (jsToString v)) ∧
    (∀ fs : List (String × Json), coerceField (some (.obj fs)) = "[object Object]") ∧
    (10 ≤ ("[object Object]" : String).length ∧ ("[object Object]" : String).length ≤ 2000) ∧
    coerceCriteria none = [] ∧
    (∀ l : List Json, coerceCriteria (some (.arr l)) = l.map jsToString) ∧
    (∀ v : Json, (∀ l : List Json, v ≠ .arr l) → coerceCriteria (some v) = []) ∧
    (∀ (req : Request) (env : Env) (up : UpstreamOutcome) (b : Json),
      req.body = some b → b.isNull = false → fetch1 req env up = .error () →
        up.rejects = true ∨ (up.ok = true ∧ (up.respJson = none ∨ up.respJson = some .null))) ∧
    (∀ (req : Request) (env : Env) (up : UpstreamOutcome) (b : Json),
      req.method = "POST" →
      isAllowedOrigin1 (req.originHeader.getD "") = some (req.originHeader.getD "") →
      req.body = some b → b.isNull = false → jsProp b "response_text" = none →
      fetch1 req env up =
        .ok (jsonResp 400 (ctCors (some (req.originHeader.getD "")))
          (.obj [("error", .str "Response length out of range")]))) := by
  refine ⟨?_, rfl, ?_, fun fs => rfl, by decide, rfl, fun l => rfl, ?_, ?_, ?_⟩
  · intro v hv
    simp [coerceField, hv, jsTrim]
  · intro v hv
    simp [coerceField, hv]
  · intro v hv
    cases v with
    | arr l => exact absurd rfl (hv l)
    | null => rfl
    | bool b => rfl
    | num n => rfl
    | str s => rfl
    | obj fs => rfl
  · intro req env up b hb hnn herr
    rcases fetch1_error_cases req env up herr with hnull | h | h
    · rw [hb] at hnull
      injection hnull with h2
      rw [h2] at hnn
      simp [Json.isNull] at hnn
    · exact Or.inl h
    · exact Or.inr h
  · intro req env up b hm hao hb hnn hprop
    rw [fetch1_reduce req env up b hm hao hb]
    simp only [guardStage, hnn, Bool.false_eq_true, if_false]
    rw [hprop]
    rw [if_pos (Or.inl (by decide))]

/-- C10 (amended) witness: a body with `response_text` absent is rejected
with the 400 length error, not an exception. -/
theorem c10_field_extraction_amended_witness :
    fetch1 ⟨"POST", some "http://localhost:3000",
        some (.obj [("learning_objective", .str "obj")])⟩ ⟨"sk"⟩
        ⟨false, false, "", none⟩ =
      .ok (jsonResp 400 (ctCors (some "http://localhost:3000"))
        (.obj [("error", .str "Response length out of range")])) :=
  c10_field_extraction_amended.2.2.2.2.2.2.2.2.2
    ⟨"POST", some "http://localhost:3000",
     some (.obj [("learning_objective", .str "obj")])⟩ ⟨"sk"⟩
    ⟨false, false, "", none⟩
    (.obj [("learning_objective", .str "obj")])
    rfl rfl rfl rfl rfl
